import Mathlib

/-!
Shallow embedding of the structured-output pipeline stages of the
`Hackathon/agentic-ai-project` agents:

* `agents/challenge_detector.py` — `detect_challenges` and its line parser
* `agents/opportunity_scorer.py` — `score_opportunities` and its line parser
* `agents/brainstorm.py` — `generate_prompts` and its prompt-line parser

Python strings are modeled as Lean `String`s; Python `dict` inputs whose
iteration order matters are modeled as association lists in that order.
The external LLM (`chain.invoke`) is a parameter: a function from the
structured prompt input to `Except String String` (the error string models
the exception message of a failed generation call).  Each stage returns,
alongside its result, the list of prompt inputs it sent to the LLM (so
call counts are observable) and the updated conversation-buffer memory
(modeled as a list of input/output string pairs, mirroring
`memory.save_context`).  Uncaught Python exceptions inside the parse loops
(`ValueError` from tuple unpacking / `int()` / `float()`, `IndexError`
from list indexing) are modeled by `Except PyErr`.
-/

set_option maxRecDepth 40000

/-- Python built-in exceptions that the parse loops can raise. -/
inductive PyErr where
  | valueError
  | indexError
deriving Repr, DecidableEq

/-- List indexing `l[i]`, raising `IndexError` when out of range. -/
def pyGet {α : Type} (l : List α) (i : Nat) : Except PyErr α :=
  match l[i]? with
  | some v => Except.ok v
  | none => Except.error PyErr.indexError

/-- Fuel-driven splitter over character lists; `splitOnFuel sep` with
enough fuel computes Python `s.split(sep)` for a non-empty separator
(leftmost, non-overlapping occurrences).  Structural recursion on the
fuel keeps every call kernel-reducible. -/
def splitOnFuel (sep : List Char) : Nat → List Char → List (List Char)
  | 0, l => [l]
  | fuel + 1, l =>
    match l with
    | [] => [[]]
    | c :: rest =>
      if sep.isPrefixOf l then
        [] :: splitOnFuel sep fuel (l.drop sep.length)
      else
        match splitOnFuel sep fuel rest with
        | [] => [[c]]
        | seg :: segs => (c :: seg) :: segs

/-- Python `s.split(sep)` for a non-empty separator. -/
def pySplit (s sep : String) : List String :=
  (splitOnFuel sep.toList (s.toList.length + 1) s.toList).map String.mk

/-- Fuel-driven replacement over character lists, computing Python
`s.replace(old, new)` (every leftmost non-overlapping occurrence). -/
def replaceFuel (old new : List Char) : Nat → List Char → List Char
  | 0, l => l
  | fuel + 1, l =>
    match l with
    | [] => []
    | c :: rest =>
      if old.isPrefixOf l then new ++ replaceFuel old new fuel (l.drop old.length)
      else c :: replaceFuel old new fuel rest

/-- Python `s.replace(old, new)` for a non-empty pattern. -/
def pyReplace (s old new : String) : String :=
  String.mk (replaceFuel old.toList new.toList (s.toList.length + 1) s.toList)

/-- Python `s.startswith(pre)`. -/
def pyStartsWith (s pre : String) : Bool := pre.toList.isPrefixOf s.toList

/-- Python `s.strip()`: drop leading and trailing whitespace (the ASCII
whitespace actually occurring in the modeled responses). -/
def pyStrip (s : String) : String :=
  String.mk (((s.toList.dropWhile Char.isWhitespace).reverse.dropWhile
    Char.isWhitespace).reverse)

/-- Python `str.strip(chars)`: drop leading and trailing characters that
belong to the given set (here always used as `strip(")")`). -/
def pyStripChars (chars : String) (s : String) : String :=
  let inSet : Char → Bool := fun c => chars.toList.contains c
  String.mk (((s.toList.dropWhile inSet).reverse.dropWhile inSet).reverse)

/-- Truthiness of a Python string (`""` is falsy). -/
def pyStrTruthy (s : String) : Bool := !s.toList.isEmpty

/-- Truthiness of an optional Python string (`None` and `""` are falsy). -/
def pyTruthy : Option String → Bool
  | none => false
  | some s => pyStrTruthy s

/-- Python `sub in s` for a non-empty needle `sub`: true iff `sub` occurs
as a substring of `s`. -/
def pyContains (s sub : String) : Bool := 2 ≤ (pySplit s sub).length

/-- Digit run to a natural number. -/
def digitsToNat (cs : List Char) : Nat :=
  cs.foldl (fun acc c => 10 * acc + (c.toNat - 48)) 0

/-- Python `int(s)` on the fragment the scorer feeds it: surrounding
whitespace, an optional sign, then a non-empty run of ASCII digits.
(Underscore separators, which Python also accepts, are outside the
modeled fragment; no input in this development uses them.) -/
def pyInt? (s : String) : Option Int :=
  let t := pyStrip s
  let signDigits : Int × List Char :=
    match t.toList with
    | c :: rest =>
      if c = '-' then (-1, rest)
      else if c = '+' then (1, rest) else (1, t.toList)
    | [] => (1, [])
  if signDigits.2.isEmpty then none
  else if signDigits.2.all Char.isDigit then
    some (signDigits.1 * (digitsToNat signDigits.2 : Int))
  else none

/-- Python `int(s)`, raising `ValueError` on a malformed literal. -/
def pyIntE (s : String) : Except PyErr Int :=
  match pyInt? s with
  | some n => Except.ok n
  | none => Except.error PyErr.valueError

/-- Python `float(s)` on plain decimal notation: surrounding whitespace,
an optional sign, digits with at most one decimal point and at least one
digit.  The value is represented exactly as a rational.  (Exponent,
`inf`/`nan` and underscore forms are outside the modeled fragment; no
input in this development uses them.) -/
def pyFloat? (s : String) : Option Rat :=
  let t := pyStrip s
  let signBody : Int × String :=
    match t.toList with
    | c :: rest =>
      if c = '-' then (-1, String.mk rest)
      else if c = '+' then (1, String.mk rest) else (1, t)
    | [] => (1, t)
  match (pySplit signBody.2 ".").map String.toList with
  | [ip] =>
    if ip.isEmpty then none
    else if ip.all Char.isDigit then some (mkRat (signBody.1 * (digitsToNat ip : Int)) 1)
    else none
  | [ip, fp] =>
    if ip.isEmpty && fp.isEmpty then none
    else if ip.all Char.isDigit && fp.all Char.isDigit then
      some (mkRat (signBody.1 * ((digitsToNat ip * 10 ^ fp.length + digitsToNat fp : Nat) : Int))
        (10 ^ fp.length))
    else none
  | _ => none

/-- Python `float(s)`, raising `ValueError` on a malformed literal. -/
def pyFloatE (s : String) : Except PyErr Rat :=
  match pyFloat? s with
  | some q => Except.ok q
  | none => Except.error PyErr.valueError

/-- Python `sep.join(parts)`. -/
def pyJoin (sep : String) : List String → String
  | [] => ""
  | [a] => a
  | a :: b :: rest => a ++ sep ++ pyJoin sep (b :: rest)

/-- A single apostrophe, as used by Python `repr` of a string. -/
def pyQuote : String := String.singleton (Char.ofNat 39)

deriving instance DecidableEq for Except

/-- One clustered-idea item: the dict `{"idea": ..., "tags": [...]}`. -/
structure IdeaItem where
  idea : String
  tags : List String
deriving Repr, DecidableEq

/-- A retained challenge record as built by the challenge parser; the
`idea` key is always present, the other keys only when the matching field
line occurred. -/
structure ChallengeRec where
  idea : String
  pain_point : Option String := none
  users_stakeholders : Option String := none
  importance : Option String := none
deriving Repr, DecidableEq

/-- A filtered-out idea with its reason. -/
structure FilteredIdea where
  idea : String
  reason : String
deriving Repr, DecidableEq

/-- The dict returned by `detect_challenges`; `error` is `some` exactly
when the returned dict carries an `"error"` key. -/
structure DetectResult where
  error : Option String := none
  challenges : List ChallengeRec := []
  filtered_ideas : List FilteredIdea := []
deriving Repr, DecidableEq

/-- Parse-loop state of the challenge parser: the accumulators plus
`current_idea` / `current_challenge`. -/
structure ChParseState where
  challenges : List ChallengeRec
  filtered_ideas : List FilteredIdea
  current_idea : Option String
  current_challenge : ChallengeRec
deriving Repr, DecidableEq

/-- Initial parse-loop state of the challenge parser. -/
def chInit : ChParseState :=
  { challenges := [], filtered_ideas := [], current_idea := none,
    current_challenge := { idea := "" } }

/-- Closing step `if current_idea: challenges.append(current_challenge)`. -/
def chCloseIfOpen (st : ChParseState) : ChParseState :=
  if pyTruthy st.current_idea then
    { st with challenges := st.challenges ++ [st.current_challenge] }
  else st

/-- One iteration of the `for line in response.strip().split("\n")` loop
of `detect_challenges` (challenge_detector.py lines 76-93). -/
def chStep (st : ChParseState) (rawLine : String) : Except PyErr ChParseState := do
  let line := pyStrip rawLine
  if pyStartsWith line "- Idea:" then
    let st1 := chCloseIfOpen st
    let seg ← pyGet (pySplit line "Idea:") 1
    let idea := pyStrip seg
    pure { st1 with current_idea := some idea, current_challenge := { idea := idea } }
  else if pyStartsWith line "Pain Point:" && pyTruthy st.current_idea then
    let v := some (pyStrip (pyReplace line "Pain Point:" ""))
    pure { st with current_challenge := { st.current_challenge with pain_point := v } }
  else if pyStartsWith line "Affected Users/Stakeholders:" && pyTruthy st.current_idea then
    let v := some (pyStrip (pyReplace line "Affected Users/Stakeholders:" ""))
    pure { st with current_challenge := { st.current_challenge with users_stakeholders := v } }
  else if pyStartsWith line "Importance:" && pyTruthy st.current_idea then
    let v := some (pyStrip (pyReplace line "Importance:" ""))
    pure { st with current_challenge := { st.current_challenge with importance := v } }
  else if pyStartsWith line "Filtered:" then
    let idea_reason := pyStrip (pyReplace line "Filtered:" "")
    let idea := pyStrip ((pySplit idea_reason "(Reason:").headD "")
    let reasonSeg ← pyGet (pySplit idea_reason "(Reason:") 1
    pure { st with filtered_ideas :=
      st.filtered_ideas ++ [{ idea := idea, reason := pyStripChars ")" reasonSeg }] }
  else
    pure st

/-- The whole parse loop of `detect_challenges` (lines 71-96): scan the
stripped response line by line, then close the last open record. -/
def parse_challenges (response : String) :
    Except PyErr (List ChallengeRec × List FilteredIdea) := do
  let st ← (pySplit (pyStrip response) "\n").foldlM chStep chInit
  let fin := chCloseIfOpen st
  pure (fin.challenges, fin.filtered_ideas)

/-- Prompt input sent by the challenge stage to the LLM, i.e. the dict
passed to `chain.invoke` (challenge_detector.py line 60). -/
structure ChPromptInput where
  clustered_ideas : String
  theme : String
deriving Repr, DecidableEq

/-- Python `str` of a list of strings, as interpolated by the f-string
`f"..., Tags: {item['tags']}"` (quote-escaping inside tags is outside the
modeled fragment; no input in this development needs it). -/
def formatTags (tags : List String) : String :=
  "[" ++ pyJoin ", " (tags.map (fun t => pyQuote ++ t ++ pyQuote)) ++ "]"

/-- The `ideas_str` accumulation of challenge_detector.py lines 49-53. -/
def ideasStr (clustered : List (String × List IdeaItem)) : String :=
  clustered.foldl (fun acc p =>
    p.2.foldl (fun acc2 it =>
      acc2 ++ "- Idea: " ++ it.idea ++ ", Tags: " ++ formatTags it.tags ++ "\n")
      (acc ++ "Theme: " ++ p.1 ++ "\n")) ""

/-- The guard `if not clustered_ideas or not any(clustered_ideas.values())`
of challenge_detector.py line 45. -/
def emptyClustered (clustered : List (String × List IdeaItem)) : Bool :=
  clustered.isEmpty || clustered.all (fun p => p.2.isEmpty)



/-- All idea dicts of the input, in iteration order, as flattened by
`for theme in clustered_ideas.values() for idea in theme`. -/
def allIdeas (clustered : List (String × List IdeaItem)) : List IdeaItem :=
  (clustered.map Prod.snd).flatten

/-- Core of `detect_challenges` (challenge_detector.py lines 44-106):
result, LLM prompt inputs actually sent, and the memory entry appended by
`memory.save_context` (reached only on the successful-parse path). -/
def detect_challenges_core (clustered : List (String × List IdeaItem)) (theme : String)
    (llm : ChPromptInput → Except String String) :
    Except PyErr DetectResult × List ChPromptInput × Option (String × String) :=
  if emptyClustered clustered then
    (Except.ok { error := some "No valid clustered ideas provided.",
                 challenges := [], filtered_ideas := [] }, [], none)
  else
    let istr := ideasStr clustered
    let inp : ChPromptInput := { clustered_ideas := istr, theme := theme }
    match llm inp with
    | Except.error e =>
      (Except.ok { error := some ("Error analyzing challenges: " ++ e),
                   challenges := [],
                   filtered_ideas := (allIdeas clustered).map
                     (fun it => { idea := it.idea, reason := "Analysis failed: " ++ e }) },
       [inp], none)
    | Except.ok response =>
      match parse_challenges response with
      | Except.error pe => (Except.error pe, [inp], none)
      | Except.ok parsed =>
        (Except.ok { error := none, challenges := parsed.1, filtered_ideas := parsed.2 },
         [inp],
         some ("Analyze challenges for clustered ideas: " ++ istr ++ ", theme: " ++ theme,
               response))

/-- The stage `detect_challenges`, threading the conversation-buffer
memory through `memory.save_context`. -/
def detect_challenges (clustered : List (String × List IdeaItem)) (theme : String)
    (llm : ChPromptInput → Except String String) (mem : List (String × String)) :
    Except PyErr DetectResult × List ChPromptInput × List (String × String) :=
  ((detect_challenges_core clustered theme llm).1,
   (detect_challenges_core clustered theme llm).2.1,
   mem ++ (detect_challenges_core clustered theme llm).2.2.toList)

/-- A ranked opportunity as built by the scorer parser.  Note that `rank`
is the raw string captured before the first colon of the `- Rank` line
(e.g. `"Rank 1"`), not an integer: the source stores
`line.split(":")[0].replace("- ", "").strip()` unchanged. -/
structure Opp where
  rank : String
  idea : String
  feasibility : Option Int := none
  feasibility_reason : Option String := none
  impact : Option Int := none
  impact_reason : Option String := none
  empathy : Option Int := none
  empathy_reason : Option String := none
  total_score : Option Rat := none
deriving Repr, DecidableEq

/-- The dict returned by `score_opportunities`; `error` is `some` exactly
when the returned dict carries an `"error"` key. -/
structure ScoreResult where
  error : Option String := none
  ranked_opportunities : List Opp := []
deriving Repr, DecidableEq

/-- Parse-loop state of the scorer parser.  `cur = some o` models
`current_rank = o.rank` together with `current_opportunity = o`; the two
Python variables are always assigned together at a `- Rank` line, so one
option faithfully captures both (`current_rank and current_opportunity`
is truthy exactly when `cur` holds a record with non-empty rank). -/
structure ScParseState where
  ranked : List Opp
  cur : Option Opp
deriving Repr, DecidableEq

/-- Emission step `if current_rank and current_opportunity:
ranked_opportunities.append(current_opportunity)`. -/
def scClose (st : ScParseState) : ScParseState :=
  match st.cur with
  | some o => if pyStrTruthy o.rank then { st with ranked := st.ranked ++ [o] } else st
  | none => st

/-- Shared shape of the three numeric field lines (opportunity_scorer.py
lines 99-110): `score, reason = line.replace(marker, "").split("(Reason:")`
followed by `int(score.split("/")[0].strip())` and `reason.strip(")")`.
The tuple unpacking raises `ValueError` unless the split yields exactly
two parts. -/
def scNumField (line marker : String) : Except PyErr (Int × String) := do
  match pySplit (pyReplace line marker "") "(Reason:" with
  | [score, reason] =>
    let n ← pyIntE (pyStrip ((pySplit score "/").headD ""))
    pure (n, pyStripChars ")" reason)
  | _ => Except.error PyErr.valueError

/-- One iteration of the `for line in response.strip().split("\n")` loop
of `score_opportunities` (opportunity_scorer.py lines 92-112). -/
def scStep (st : ScParseState) (rawLine : String) : Except PyErr ScParseState := do
  let line := pyStrip rawLine
  if pyStartsWith line "- Rank" then
    let st1 := scClose st
    let parts := pySplit line ":"
    let rank := pyStrip (pyReplace (parts.headD "") "- " "")
    let ideaSeg ← pyGet parts 1
    pure { st1 with cur := some { rank := rank, idea := pyStrip ideaSeg } }
  else
    match st.cur with
    | none => pure st
    | some o =>
      if !pyStrTruthy o.rank then pure st
      else if pyStartsWith line "Feasibility:" then
        let nr ← scNumField line "Feasibility:"
        pure { st with cur := some { o with feasibility := some nr.1, feasibility_reason := some nr.2 } }
      else if pyStartsWith line "Impact:" then
        let nr ← scNumField line "Impact:"
        pure { st with cur := some { o with impact := some nr.1, impact_reason := some nr.2 } }
      else if pyStartsWith line "Empathy:" then
        let nr ← scNumField line "Empathy:"
        pure { st with cur := some { o with empathy := some nr.1, empathy_reason := some nr.2 } }
      else if pyStartsWith line "Total Score:" then
        let v ← pyFloatE (pyStrip ((pySplit (pyReplace line "Total Score:" "") "/").headD ""))
        pure { st with cur := some { o with total_score := some v } }
      else pure st

/-- The whole parse loop of `score_opportunities` (lines 88-115): scan
the stripped response line by line, then close the last open record. -/
def parse_opportunities (response : String) : Except PyErr (List Opp) := do
  let st ← (pySplit (pyStrip response) "\n").foldlM scStep { ranked := [], cur := none }
  pure (scClose st).ranked

/-- Prompt input sent by the scorer stage to the LLM, i.e. the dict
passed to `chain.invoke` (opportunity_scorer.py line 79). -/
structure ScPromptInput where
  challenges : String
  theme : String
  survey_results : String
deriving Repr, DecidableEq

/-- The `challenges_str` accumulation of opportunity_scorer.py lines
60-65 (absent keys print as `N/A` via `challenge.get(..., 'N/A')`). -/
def challengesStr (challenges : List ChallengeRec) : String :=
  challenges.foldl (fun acc c =>
    acc ++ "- Idea: " ++ c.idea ++ "\n"
        ++ "  Pain Point: " ++ c.pain_point.getD "N/A" ++ "\n"
        ++ "  Affected Users/Stakeholders: " ++ c.users_stakeholders.getD "N/A" ++ "\n"
        ++ "  Importance: " ++ c.importance.getD "N/A" ++ "\n") ""

/-- The deterministic mock survey of opportunity_scorer.py lines 67-72:
one line per challenge idea, user rating 80 when the idea contains the
substring `"Optimize"` and 50 otherwise. -/
def mockSurvey (challenges : List ChallengeRec) : String :=
  pyJoin "\n" (challenges.map (fun c =>
    "Idea: " ++ c.idea ++ ", User Rating: "
      ++ (if pyContains c.idea "Optimize" then "80" else "50") ++ "/100"))

/-- The guard `if not survey_results:` of line 67 (`None` or `""`). -/
def surveyFalsy : Option String → Bool
  | none => true
  | some s => !pyStrTruthy s

/-- The survey text actually substituted into the prompt: the caller's
when truthy, the mock otherwise. -/
def effectiveSurvey (challenges : List ChallengeRec) (survey_results : Option String) : String :=
  if surveyFalsy survey_results then mockSurvey challenges else survey_results.getD ""

/-- The prompt input built by `score_opportunities` before invoking the
LLM. -/
def scInput (challenges : List ChallengeRec) (theme : String)
    (survey_results : Option String) : ScPromptInput :=
  { challenges := challengesStr challenges, theme := theme,
    survey_results := effectiveSurvey challenges survey_results }

/-- Core of `score_opportunities` (opportunity_scorer.py lines 55-124):
result, LLM prompt inputs actually sent, and the memory entry appended by
`memory.save_context` (reached only on the successful-parse path). -/
def score_opportunities_core (challenges : List ChallengeRec) (theme : String)
    (survey_results : Option String) (llm : ScPromptInput → Except String String) :
    Except PyErr ScoreResult × List ScPromptInput × Option (String × String) :=
  if challenges.isEmpty then
    (Except.ok { error := some "No valid challenges provided.",
                 ranked_opportunities := [] }, [], none)
  else
    let inp := scInput challenges theme survey_results
    match llm inp with
    | Except.error e =>
      (Except.ok { error := some ("Error scoring opportunities: " ++ e),
                   ranked_opportunities := [] }, [inp], none)
    | Except.ok response =>
      match parse_opportunities response with
      | Except.error pe => (Except.error pe, [inp], none)
      | Except.ok ranked =>
        (Except.ok { error := none, ranked_opportunities := ranked.take 3 },
         [inp],
         some ("Score opportunities for challenges: " ++ inp.challenges ++ ", theme: "
                 ++ theme ++ ", survey: " ++ inp.survey_results,
               response))

/-- The stage `score_opportunities`, threading the conversation-buffer
memory through `memory.save_context`. -/
def score_opportunities (challenges : List ChallengeRec) (theme : String)
    (survey_results : Option String) (llm : ScPromptInput → Except String String)
    (mem : List (String × String)) :
    Except PyErr ScoreResult × List ScPromptInput × List (String × String) :=
  ((score_opportunities_core challenges theme survey_results llm).1,
   (score_opportunities_core challenges theme survey_results llm).2.1,
   mem ++ (score_opportunities_core challenges theme survey_results llm).2.2.toList)

/-- Project metadata as consumed by `generate_prompts` (brainstorm.py):
`metadata.get("theme", "general")` and `metadata.get("department",
"general")` are the only reads, so only those keys are modeled, as
optional to capture the `.get` defaults. -/
structure Metadata where
  theme : Option String := none
  department : Option String := none
deriving Repr, DecidableEq

/-- The prompt parser of brainstorm.py line 95: keep the stripped lines
of the stripped response that start with `"Prompt:"`. -/
def parsePrompts (response : String) : List String :=
  ((pySplit (pyStrip response) "\n").map pyStrip).filter (fun p => pyStartsWith p "Prompt:")

/-- The three deterministic fallback prompts of brainstorm.py lines
99-103. -/
def fallbackPrompts (metadata : Metadata) : List String :=
  ["Prompt: Explore a " ++ metadata.theme.getD "general" ++ " solution using AI (Source: Generic)",
   "Prompt: Optimize a process in " ++ metadata.theme.getD "general" ++ " (Source: Generic)",
   "Prompt: Address a challenge in " ++ metadata.department.getD "general" ++ " (Source: Generic)"]

/-- The stage `generate_prompts` (brainstorm.py lines 70-114) from the
LLM call onward: `llmResult` is the outcome of the single `chain.invoke`
call (the retrieval step only shapes the prompt text, and the
conversation-memory append does not affect the returned list, so neither
is modeled here).  On a generation failure the stage returns the error
sentinel list; otherwise it parses, pads with `fallback_prompts[:5 -
len(prompts)]` when fewer than 3 prompts parsed, and caps at 5. -/
def generate_prompts (metadata : Metadata) (llmResult : Except String String) : List String :=
  match llmResult with
  | Except.error _ => ["Error: Could not generate prompts."]
  | Except.ok response =>
    let prompts := parsePrompts response
    let prompts :=
      if prompts.length < 3 then prompts ++ (fallbackPrompts metadata).take (5 - prompts.length)
      else prompts
    prompts.take 5

/-- The idea strings of a `DetectResult`, retained and filtered together
(the two output bins of the challenge-detection stage). -/
def unionIdeas (d : DetectResult) : List String :=
  d.challenges.map (fun c => c.idea) ++ d.filtered_ideas.map (fun f => f.idea)

/-- The idea strings of the stage input, in iteration order. -/
def inputIdeas (clustered : List (String × List IdeaItem)) : List String :=
  (allIdeas clustered).map (fun it => it.idea)

/-- C1 counterexample.  The claim says the parsers return normally on
every input, with a malformed numeric or `Filtered:` field line dropping
only that field.  In fact `score, reason = ....split("(Reason:")` raises
`ValueError` when the token is missing, and `....split("(Reason:")[1]`
raises `IndexError`, so both parsers raise instead of returning. -/
theorem parse_raises_on_malformed_field_cex :
    parse_opportunities "- Rank 1: A\n  Feasibility: 80/100" = Except.error PyErr.valueError ∧
    parse_challenges "Filtered: Vague idea" = Except.error PyErr.indexError := by
  decide

/-- C1 amended.  A malformed numeric field line (missing `(Reason:` or a
non-integer score) or a `Filtered:` line missing `(Reason:` raises a
`ValueError`/`IndexError` that aborts the entire parse — no record is
emitted, not even fully well-formed ones parsed earlier — and the
exception propagates out of `score_opportunities`. -/
theorem malformed_field_aborts_whole_parse :
    parse_opportunities
        "- Rank 1: A\n  Feasibility: 80/100 (Reason: ok)\n  Impact: bad/100 (Reason: why)" =
      Except.error PyErr.valueError ∧
    parse_challenges "- Idea: Good one\n  Pain Point: pp\nFiltered: Vague idea" =
      Except.error PyErr.indexError ∧
    (score_opportunities [{ idea := "A" }] "t" none
        (fun _ => Except.ok "- Rank 1: A\n  Feasibility: 80/100") []).1 =
      Except.error PyErr.valueError := by
  decide

/-- C7 counterexample.  Scenario A does not parse to the claimed filtered
entry: the reason is extracted with `.strip(")")`, which removes only
parentheses, so the space after `(Reason:` survives and the reason is
`" too generic"`, not `"too generic"`. -/
theorem scenarioA_not_as_claimed_cex :
    parse_challenges "- Idea: Cut costs\n  Pain Point: high spend\n  Affected Users/Stakeholders: ops\n  Importance: saves money\nFiltered: Vague idea (Reason: too generic)" ≠
      Except.ok ([{ idea := "Cut costs", pain_point := some "high spend",
                    users_stakeholders := some "ops", importance := some "saves money" }],
                 [{ idea := "Vague idea", reason := "too generic" }]) := by
  decide

/-- C7 amended.  Scenario A parses to exactly one challenge record with
idea `"Cut costs"`, pain point `"high spend"`, stakeholders `"ops"`,
importance `"saves money"`, and one filtered entry with idea
`"Vague idea"` and reason `" too generic"` (the leading space is kept
because only `")"` is stripped from the reason). -/
theorem scenarioA_parse_exact :
    parse_challenges "- Idea: Cut costs\n  Pain Point: high spend\n  Affected Users/Stakeholders: ops\n  Importance: saves money\nFiltered: Vague idea (Reason: too generic)" =
      Except.ok ([{ idea := "Cut costs", pain_point := some "high spend",
                    users_stakeholders := some "ops", importance := some "saves money" }],
                 [{ idea := "Vague idea", reason := " too generic" }]) := by
  decide

/-- C8 counterexample.  The scorer's record-start handler stores
`line.split(":")[1].strip()` — the text between the first and second
colon — so a primary field containing a colon is truncated there rather
than captured in full: `"- Rank 1: Fix: the app"` yields idea `"Fix"`,
not `"Fix: the app"`. -/
theorem record_start_truncates_at_colon_cex :
    parse_opportunities "- Rank 1: Fix: the app" =
      Except.ok [{ rank := "Rank 1", idea := "Fix" }] ∧
    ("Fix" : String) ≠ "Fix: the app" := by
  decide

/-- C8 amended.  A record-start line closes the previous open record and
opens a new one; the challenge parser captures the whole remainder after
the first `Idea:` (a colon inside it survives), but the scorer captures
only the text between the first and second colon of the `- Rank` line,
truncating a colon-bearing primary field. -/
theorem record_start_closes_and_captures :
    parse_opportunities "- Rank 1: Fix: the app\n- Rank 2: Second" =
      Except.ok [{ rank := "Rank 1", idea := "Fix" }, { rank := "Rank 2", idea := "Second" }] ∧
    parse_challenges "- Idea: Deploy: phase one\n  Pain Point: p\n- Idea: Second idea" =
      Except.ok ([{ idea := "Deploy: phase one", pain_point := some "p" },
                  { idea := "Second idea" }], []) := by
  decide

/-- C2 counterexample.  On the success path the output bins are built
solely from the model response, so with a response mentioning no idea the
union of retained and filtered ideas is empty while the input idea set is
not: the claimed partition of the input does not hold. -/
theorem filter_partition_misses_input_cex :
    (detect_challenges [("t", [{ idea := "A", tags := [] }])] "th"
        (fun _ => Except.ok "") []).1 =
      Except.ok { error := none, challenges := [], filtered_ideas := [] } ∧
    unionIdeas { error := none, challenges := [], filtered_ideas := [] } = [] ∧
    inputIdeas [("t", [{ idea := "A", tags := [] }])] = ["A"] := by
  decide

/-- C2 amended.  The retained/filtered union covers the input idea set
only on the generation-failure path: there the challenge list is empty
and every input idea is filtered with reason `"Analysis failed: <cause>"`,
so the union equals the input idea set with no idea in both bins.  On the
success path the bins come from the response text, not the input. -/
theorem filter_partition_on_generation_failure
    (cl : List (String × List IdeaItem)) (th e : String)
    (llm : ChPromptInput → Except String String) (mem : List (String × String))
    (h1 : emptyClustered cl = false)
    (h2 : llm { clustered_ideas := ideasStr cl, theme := th } = Except.error e) :
    (detect_challenges cl th llm mem).1 =
      Except.ok { error := some ("Error analyzing challenges: " ++ e),
                  challenges := [],
                  filtered_ideas := (allIdeas cl).map
                    (fun it => { idea := it.idea, reason := "Analysis failed: " ++ e }) } ∧
    unionIdeas { error := some ("Error analyzing challenges: " ++ e),
                 challenges := [],
                 filtered_ideas := (allIdeas cl).map
                   (fun it => { idea := it.idea, reason := "Analysis failed: " ++ e }) } =
      inputIdeas cl := by
  constructor
  · simp [detect_challenges, detect_challenges_core, h1, h2]
  · simp [unionIdeas, inputIdeas, List.map_map, Function.comp]

/-- C2 witness: the generation-failure partition at a concrete
three-idea, two-theme input. -/
theorem filter_partition_failure_witness :
    (detect_challenges [("t", [{ idea := "A", tags := ["x"] }, { idea := "B", tags := [] }]),
                        ("u", [{ idea := "C", tags := [] }])] "th"
        (fun _ => Except.error "boom") []).1 =
      Except.ok { error := some ("Error analyzing challenges: " ++ "boom"),
                  challenges := [],
                  filtered_ideas :=
                    (allIdeas [("t", [{ idea := "A", tags := ["x"] }, { idea := "B", tags := [] }]),
                               ("u", [{ idea := "C", tags := [] }])]).map
                      (fun it => { idea := it.idea, reason := "Analysis failed: " ++ "boom" }) } ∧
    unionIdeas { error := some ("Error analyzing challenges: " ++ "boom"),
                 challenges := [],
                 filtered_ideas :=
                   (allIdeas [("t", [{ idea := "A", tags := ["x"] }, { idea := "B", tags := [] }]),
                              ("u", [{ idea := "C", tags := [] }])]).map
                     (fun it => { idea := it.idea, reason := "Analysis failed: " ++ "boom" }) } =
      inputIdeas [("t", [{ idea := "A", tags := ["x"] }, { idea := "B", tags := [] }]),
                  ("u", [{ idea := "C", tags := [] }])] :=
  filter_partition_on_generation_failure _ "th" "boom" _ [] (by decide) rfl

/-- C5 counterexample.  With an absent/empty input slot the stages do not
raise a `MissingDependencyError` (no such exception exists in the code):
they return normally with an error-marked dict — here shown as a plain
`Except.ok` value — and make zero LLM calls. -/
theorem missing_input_returns_not_raises_cex :
    detect_challenges [] "t" (fun _ => Except.ok "resp") [] =
      (Except.ok { error := some "No valid clustered ideas provided.",
                   challenges := [], filtered_ideas := [] }, [], []) ∧
    score_opportunities [] "t" none (fun _ => Except.ok "resp") [] =
      (Except.ok { error := some "No valid challenges provided.",
                   ranked_opportunities := [] }, [], []) := by
  decide

/-- C5 amended.  When the declared input slot is absent or empty the
stage returns (does not raise) an error-marked result with empty record
lists, sends no prompt to the CompletionClient, and leaves the
conversation memory untouched. -/
theorem empty_input_error_marker_no_call
    (cl : List (String × List IdeaItem)) (th : String)
    (llm : ChPromptInput → Except String String) (mem : List (String × String))
    (th2 : String) (sv : Option String) (llm2 : ScPromptInput → Except String String)
    (mem2 : List (String × String))
    (h : emptyClustered cl = true) :
    detect_challenges cl th llm mem =
      (Except.ok { error := some "No valid clustered ideas provided.",
                   challenges := [], filtered_ideas := [] }, [], mem) ∧
    score_opportunities [] th2 sv llm2 mem2 =
      (Except.ok { error := some "No valid challenges provided.",
                   ranked_opportunities := [] }, [], mem2) := by
  constructor
  · simp [detect_challenges, detect_challenges_core, h]
  · simp [score_opportunities, score_opportunities_core]

/-- C5 witness: a clustered-ideas dict whose every theme maps to an empty
idea list counts as an empty slot, and both stages return the error
marker with zero LLM calls. -/
theorem empty_input_error_marker_witness :
    detect_challenges [("t", [])] "th" (fun _ => Except.ok "resp") [("a", "b")] =
      (Except.ok { error := some "No valid clustered ideas provided.",
                   challenges := [], filtered_ideas := [] }, [], [("a", "b")]) ∧
    score_opportunities [] "th" (some "") (fun _ => Except.ok "resp") [] =
      (Except.ok { error := some "No valid challenges provided.",
                   ranked_opportunities := [] }, [], []) :=
  empty_input_error_marker_no_call [("t", [])] "th" _ [("a", "b")] "th" (some "")
    _ [] (by decide)

/-- C6.  A failing CompletionClient call is caught at the stage boundary:
both stages return normally with an error marker in the output slot —
the challenge stage with an empty challenge list and every input idea
filtered with reason `"Analysis failed: <cause>"`, the scorer with an
empty ranked list — and the failure never propagates past the stage. -/
theorem generation_failure_degrades_not_raises
    (cl : List (String × List IdeaItem)) (th e : String)
    (llm : ChPromptInput → Except String String) (mem : List (String × String))
    (ch : List ChallengeRec) (th2 : String) (sv : Option String) (e2 : String)
    (llm2 : ScPromptInput → Except String String) (mem2 : List (String × String))
    (h1 : emptyClustered cl = false)
    (h2 : llm { clustered_ideas := ideasStr cl, theme := th } = Except.error e)
    (h3 : ch.isEmpty = false)
    (h4 : llm2 (scInput ch th2 sv) = Except.error e2) :
    (detect_challenges cl th llm mem).1 =
      Except.ok { error := some ("Error analyzing challenges: " ++ e),
                  challenges := [],
                  filtered_ideas := (allIdeas cl).map
                    (fun it => { idea := it.idea, reason := "Analysis failed: " ++ e }) } ∧
    (score_opportunities ch th2 sv llm2 mem2).1 =
      Except.ok { error := some ("Error scoring opportunities: " ++ e2),
                  ranked_opportunities := [] } := by
  constructor
  · simp [detect_challenges, detect_challenges_core, h1, h2]
  · simp [score_opportunities, score_opportunities_core, h3, h4]

/-- C6 witness: concrete failing clients for both stages. -/
theorem generation_failure_degrades_witness :
    (detect_challenges [("t", [{ idea := "A", tags := [] }])] "th"
        (fun _ => Except.error "quota") []).1 =
      Except.ok { error := some ("Error analyzing challenges: " ++ "quota"),
                  challenges := [],
                  filtered_ideas := (allIdeas [("t", [{ idea := "A", tags := [] }])]).map
                    (fun it => { idea := it.idea, reason := "Analysis failed: " ++ "quota" }) } ∧
    (score_opportunities [{ idea := "B" }] "th" none
        (fun _ => Except.error "auth") []).1 =
      Except.ok { error := some ("Error scoring opportunities: " ++ "auth"),
                  ranked_opportunities := [] } :=
  generation_failure_degrades_not_raises [("t", [{ idea := "A", tags := [] }])] "th" "quota"
    _ [] [{ idea := "B" }] "th" none "auth" _ [] (by decide) rfl (by decide) rfl

/-- C3 counterexample.  The committed `rank` is the raw string before the
first colon of the `- Rank` line, with no validation: a response whose
only record is `- Rank 2: B` is committed with rank `"Rank 2"` — not an
integer and not a sequence starting at 1 — so the stage does not validate
the claimed rank shape. -/
theorem rank_shape_not_validated_cex :
    (score_opportunities [{ idea := "A" }] "t" none
        (fun _ => Except.ok "- Rank 2: B") []).1 =
      Except.ok { error := none,
                  ranked_opportunities := [{ rank := "Rank 2", idea := "B" }] } ∧
    pyInt? "Rank 2" = none := by
  decide

/-- C3 amended.  The scored-opportunity stage commits at most 3 records —
the parsed list truncated to its first 3, in response order — but the
`rank` fields are unvalidated raw strings: the engine neither checks that
they form an increasing integer sequence starting at 1 nor re-sorts. -/
theorem score_commits_parse_prefix
    (ch : List ChallengeRec) (th : String) (sv : Option String)
    (llm : ScPromptInput → Except String String) (mem : List (String × String))
    (response : String) (l : List Opp)
    (h1 : ch.isEmpty = false)
    (h2 : llm (scInput ch th sv) = Except.ok response)
    (h3 : parse_opportunities response = Except.ok l) :
    (score_opportunities ch th sv llm mem).1 =
      Except.ok { error := none, ranked_opportunities := l.take 3 } ∧
    (l.take 3).length ≤ 3 := by
  constructor
  · simp [score_opportunities, score_opportunities_core, h1, h2, h3]
  · rw [List.length_take]
    exact Nat.min_le_left _ _

/-- Concrete four-record response used to witness the truncation. -/
def c3resp : String :=
  "- Rank 1: A\n  Feasibility: 90/100 (Reason: ok)\n  Total Score: 85.5/100\n- Rank 2: B\n- Rank 3: C\n- Rank 4: D"

/-- The parse of `c3resp`: four records, ranks in response order. -/
def c3opps : List Opp :=
  [{ rank := "Rank 1", idea := "A", feasibility := some 90,
     feasibility_reason := some " ok", total_score := some (mkRat 171 2) },
   { rank := "Rank 2", idea := "B" },
   { rank := "Rank 3", idea := "C" },
   { rank := "Rank 4", idea := "D" }]

/-- C3 witness: a four-record response is committed as its first three
records. -/
theorem score_commits_parse_prefix_witness :
    (score_opportunities [{ idea := "A" }] "t" none
        (fun _ => Except.ok c3resp) []).1 =
      Except.ok { error := none, ranked_opportunities := c3opps.take 3 } ∧
    (c3opps.take 3).length ≤ 3 :=
  score_commits_parse_prefix [{ idea := "A" }] "t" none _ [] c3resp c3opps
    rfl rfl (by decide)

/-- C4 counterexample.  With 1 parsed prompt (below the declared minimum
of 3) the committed output has 1 + 3 = 4 records, not exactly 3 as
claimed: the source appends `fallback_prompts[:5 - len(prompts)]`, which
is all three fallbacks whenever fewer than 3 prompts parsed. -/
theorem fallback_padding_count_cex :
    (parsePrompts "Prompt: A (Source: B)").length = 1 ∧
    (generate_prompts { theme := some "healthcare", department := some "CS" }
        (Except.ok "Prompt: A (Source: B)")).length = 4 ∧
    (generate_prompts { theme := some "healthcare", department := some "CS" }
        (Except.ok "Prompt: A (Source: B)")).length ≠ 3 := by
  decide

/-- C4 amended.  If the parser yields `n < 3` records, the committed
output is the `n` parsed records followed by all three deterministic
fallback prompts — `n + 3` records in total (between 3 and 5), not
exactly the minimum. -/
theorem fallback_padding_appends_all_three (md : Metadata) (response : String)
    (h : (parsePrompts response).length < 3) :
    generate_prompts md (Except.ok response) =
      parsePrompts response ++ fallbackPrompts md ∧
    (generate_prompts md (Except.ok response)).length =
      (parsePrompts response).length + 3 := by
  have hf : (fallbackPrompts md).length = 3 := rfl
  have htake : (fallbackPrompts md).take (5 - (parsePrompts response).length) =
      fallbackPrompts md :=
    List.take_of_length_le (by rw [hf]; omega)
  have hmain : generate_prompts md (Except.ok response) =
      parsePrompts response ++ fallbackPrompts md := by
    simp only [generate_prompts, if_pos h, htake]
    exact List.take_of_length_le (by simp [hf]; omega)
  exact ⟨hmain, by rw [hmain]; simp [hf]⟩

/-- C4 witness: one parsed prompt is padded to four records. -/
theorem fallback_padding_witness :
    generate_prompts { theme := some "healthcare", department := some "CS" }
        (Except.ok "Prompt: A (Source: B)") =
      parsePrompts "Prompt: A (Source: B)" ++
        fallbackPrompts { theme := some "healthcare", department := some "CS" } ∧
    (generate_prompts { theme := some "healthcare", department := some "CS" }
        (Except.ok "Prompt: A (Source: B)")).length =
      (parsePrompts "Prompt: A (Source: B)").length + 3 :=
  fallback_padding_appends_all_three _ _ (by decide)

/-- C9.  The parse-and-commit output of each stage is a pure function of
its inputs and the response: the conversation-buffer memory — the only
hidden mutable state in the source — does not affect the returned result
or the prompts sent, so parsing the same response twice yields identical
record sequences. -/
theorem parse_pure_no_hidden_state
    (cl : List (String × List IdeaItem)) (th : String)
    (llm : ChPromptInput → Except String String)
    (ch : List ChallengeRec) (th2 : String) (sv : Option String)
    (llm2 : ScPromptInput → Except String String)
    (mem1 mem2 : List (String × String)) :
    (detect_challenges cl th llm mem1).1 = (detect_challenges cl th llm mem2).1 ∧
    (detect_challenges cl th llm mem1).2.1 = (detect_challenges cl th llm mem2).2.1 ∧
    (score_opportunities ch th2 sv llm2 mem1).1 = (score_opportunities ch th2 sv llm2 mem2).1 ∧
    (score_opportunities ch th2 sv llm2 mem1).2.1 = (score_opportunities ch th2 sv llm2 mem2).2.1 :=
  ⟨rfl, rfl, rfl, rfl⟩

/-- The first element of a non-empty join bounds the join's length from
below. -/
theorem pyJoin_cons_length (sep a : String) (l : List String) :
    a.length ≤ (pyJoin sep (a :: l)).length := by
  cases l with
  | nil => simp [pyJoin]
  | cons b rest => simp [pyJoin, String.length_append]; omega

/-- The mock survey over a non-empty challenge list is a non-empty
string (its first line starts with the six characters of `"Idea: "`). -/
theorem mockSurvey_length_pos (c : ChallengeRec) (rest : List ChallengeRec) :
    0 < (mockSurvey (c :: rest)).length := by
  have h1 := pyJoin_cons_length "\n"
    ("Idea: " ++ c.idea ++ ", User Rating: "
      ++ (if pyContains c.idea "Optimize" then "80" else "50") ++ "/100")
    (rest.map (fun c2 => "Idea: " ++ c2.idea ++ ", User Rating: "
      ++ (if pyContains c2.idea "Optimize" then "80" else "50") ++ "/100"))
  have h2 : ("Idea: " : String).length = 6 := rfl
  have h3 : 0 < ("Idea: " ++ c.idea ++ ", User Rating: "
      ++ (if pyContains c.idea "Optimize" then "80" else "50") ++ "/100").length := by
    simp only [String.length_append]
    rw [h2]
    omega
  have h4 : (mockSurvey (c :: rest)).length =
      (pyJoin "\n" ((c :: rest).map (fun c2 => "Idea: " ++ c2.idea ++ ", User Rating: "
        ++ (if pyContains c2.idea "Optimize" then "80" else "50") ++ "/100"))).length := rfl
  rw [h4]
  calc 0 < _ := h3
    _ ≤ _ := by simpa using h1

/-- The mock survey of a non-empty challenge list is never the empty
string. -/
theorem mockSurvey_ne_empty (ch : List ChallengeRec) (h : ch.isEmpty = false) :
    mockSurvey ch ≠ "" := by
  cases ch with
  | nil => simp at h
  | cons c rest =>
    intro he
    have hp := mockSurvey_length_pos c rest
    rw [he] at hp
    simp at hp

/-- C10.  When `survey_results` is `None` or empty and the challenge list
is non-empty, the single prompt sent to the LLM carries the deterministic
mock survey: one line per challenge idea with user rating 80 when the
idea contains the substring `"Optimize"` and 50 otherwise — and that
survey section is never the empty string. -/
theorem mock_survey_substituted
    (ch : List ChallengeRec) (th : String) (sv : Option String)
    (llm : ScPromptInput → Except String String) (mem : List (String × String))
    (h1 : ch.isEmpty = false) (h2 : surveyFalsy sv = true) :
    (score_opportunities ch th sv llm mem).2.1 =
      [{ challenges := challengesStr ch, theme := th,
         survey_results := pyJoin "\n" (ch.map (fun c =>
           "Idea: " ++ c.idea ++ ", User Rating: "
             ++ (if pyContains c.idea "Optimize" then "80" else "50") ++ "/100")) }] ∧
    pyJoin "\n" (ch.map (fun c => "Idea: " ++ c.idea ++ ", User Rating: "
        ++ (if pyContains c.idea "Optimize" then "80" else "50") ++ "/100")) ≠ "" := by
  constructor
  · have hcalls : (score_opportunities ch th sv llm mem).2.1 =
        (score_opportunities_core ch th sv llm).2.1 := rfl
    rw [hcalls]
    unfold score_opportunities_core
    simp only [h1, Bool.false_eq_true, if_false]
    cases hll : llm (scInput ch th sv) with
    | error e => simp [scInput, effectiveSurvey, h2, mockSurvey]
    | ok r =>
      cases hp : parse_opportunities r with
      | error pe => simp [hp, scInput, effectiveSurvey, h2, mockSurvey]
      | ok l => simp [hp, scInput, effectiveSurvey, h2, mockSurvey]
  · have := mockSurvey_ne_empty ch h1
    simpa [mockSurvey] using this

/-- C10 witness: `Optimize flow` rates 80, `Other` rates 50, and the
survey section is non-empty. -/
theorem mock_survey_substituted_witness :
    (score_opportunities [{ idea := "Optimize flow" }, { idea := "Other" }] "t" none
        (fun _ => Except.ok "resp") []).2.1 =
      [{ challenges := challengesStr [{ idea := "Optimize flow" }, { idea := "Other" }],
         theme := "t",
         survey_results := pyJoin "\n"
           (([{ idea := "Optimize flow" }, { idea := "Other" }] : List ChallengeRec).map
             (fun c => "Idea: " ++ c.idea ++ ", User Rating: "
               ++ (if pyContains c.idea "Optimize" then "80" else "50") ++ "/100")) }] ∧
    pyJoin "\n" (([{ idea := "Optimize flow" }, { idea := "Other" }] : List ChallengeRec).map
        (fun c => "Idea: " ++ c.idea ++ ", User Rating: "
          ++ (if pyContains c.idea "Optimize" then "80" else "50") ++ "/100")) ≠ "" :=
  mock_survey_substituted [{ idea := "Optimize flow" }, { idea := "Other" }] "t" none
    _ [] rfl rfl
